import Mathlib

/-!
# Verification of the keycloak-rust session / pagination / policy-decoding core

Shallow embedding of the parts of the `keycloak-rust` repository that carry the
design's invariants:

* the error taxonomy (`src/rust/src/error.rs`),
* the authentication providers (`src/rust/src/auth.rs`),
* the session construction and refresh coordination (`src/rust/src/lib.rs`),
* the pagination driver (`src/src/macros.rs`, `paginate_api!`),
* the polymorphic policy decoder (`src/rust/src/rest/types/policies.rs`),
* the `user_by_name` accessor (`src/rust/src/api/user.rs`).

Rust `Instant` values are modelled as natural numbers (an abstract monotone
clock); `Duration` values as natural numbers of seconds.  Fallible Rust code
returning `Result<T, Error>` is modelled with `Except KcError T`.  Async
methods that mutate `self` are modelled as explicit state-passing functions;
the outcome of an HTTP exchange is passed in as an explicit oracle argument.
-/

namespace Keycloak

/-- `ResourceType` from `src/rust/src/error.rs`. -/
inductive ResourceType where
  | client
  | group
  | user
deriving DecidableEq, Repr

/-- `ErrorKind` from `src/rust/src/error.rs` (payloads irrelevant to the
claims, such as HTTP status codes and raw bodies, are elided). -/
inductive ErrorKind where
  | deserialize
  | reqwest
  | missingAccessToken
  | tokenExpired
  | authentication
  | responseError
  | keycloakError
  | apiError
  | notFound (r : ResourceType)
  | notUnique (r : ResourceType)
  | missingId
  | missingField (name : String)
  | wrongType (expected actual : String)
  | other
deriving DecidableEq, Repr

/-- `KeycloakError` from `src/rust/src/error.rs`: a kind plus an optional
cause chain (`source`); the two constructors correspond to `source` being
`None` or `Some`.  The `InnerError` variants that wrap foreign library
errors are collapsed into the recursive case, which is all the claims
need. -/
inductive KcError where
  | base (kind : ErrorKind)
  | withSource (kind : ErrorKind) (source : KcError)
deriving DecidableEq, Repr

/-- `KeycloakError::kind`. -/
def KcError.kind : KcError → ErrorKind
  | .base k => k
  | .withSource k _ => k

/-- `KeycloakError`'s `source` field. -/
def KcError.source : KcError → Option KcError
  | .base _ => none
  | .withSource _ s => some s

/-- `KeycloakError::new`. -/
def KcError.new (kind : ErrorKind) (source : Option KcError) : KcError :=
  match source with
  | none => .base kind
  | some s => .withSource kind s

/-- `KeycloakError::new_kind`. -/
def KcError.newKind (kind : ErrorKind) : KcError :=
  .base kind

/-- `KeycloakConfig` from `src/rust/src/lib.rs`. -/
structure KeycloakConfig where
  base_url : String
  realm : String
deriving DecidableEq, Repr

/-! ## Authentication providers (`src/rust/src/auth.rs`) -/

/-- The `Tokens` struct private to `DirectGrantAuth`
(`src/rust/src/auth.rs`).  Instants are naturals. -/
structure Tokens where
  access_token : String
  expiry : Nat
  refresh_token : String
  refresh_expiry : Nat
deriving DecidableEq, Repr

/-- `TokenResponse` from `src/rust/src/rest.rs` (fields used by
`DirectGrantAuth::request_tokens`). -/
structure TokenResponse where
  access_token : String
  expires_in : Nat
  refresh_token : String
  refresh_expires_in : Nat
deriving DecidableEq, Repr

/-- The state of `DirectGrantAuth` relevant to the token lifecycle: the
credential fields never change after construction and are elided; only
`tokens : Option<Tokens>` evolves. -/
structure DirectGrantAuth where
  tokens : Option Tokens
deriving DecidableEq, Repr

namespace DirectGrantAuth

/-- The token-pair construction at the end of
`DirectGrantAuth::request_tokens` (`src/rust/src/auth.rs` lines 174-180):
expiries are `now + server-reported lifetime`. -/
def mkTokens (resp : TokenResponse) (now : Nat) : Tokens :=
  { access_token := resp.access_token
    expiry := now + resp.expires_in
    refresh_token := resp.refresh_token
    refresh_expiry := now + resp.refresh_expires_in }

/-- `DirectGrantAuth::access_token`. -/
def access_token (d : DirectGrantAuth) : Option String :=
  d.tokens.map (·.access_token)

/-- `DirectGrantAuth::token_is_valid`: `t.expiry >= Instant::now()`. -/
def token_is_valid (d : DirectGrantAuth) (now : Nat) : Bool :=
  match d.tokens with
  | none => false
  | some t => now ≤ t.expiry

/-- `DirectGrantAuth::needs_refresh`:
`(t.expiry - Duration::from_secs(10)) < Instant::now()` (truncated
subtraction, as for Rust `Instant` values near the epoch the code would
panic rather than wrap). -/
def needs_refresh (d : DirectGrantAuth) (now : Nat) : Bool :=
  match d.tokens with
  | none => false
  | some t => t.expiry - 10 < now

/-- `DirectGrantAuth::can_refresh`: `t.refresh_expiry >= Instant::now()`. -/
def can_refresh (d : DirectGrantAuth) (now : Nat) : Bool :=
  match d.tokens with
  | none => false
  | some t => now ≤ t.refresh_expiry

/-- `DirectGrantAuth::login`: performs the password-grant token exchange,
whose outcome is the oracle `resp`, and stores the resulting token pair. -/
def login (d : DirectGrantAuth) (resp : Except KcError TokenResponse)
    (now : Nat) : Except KcError Unit × DirectGrantAuth :=
  match resp with
  | .error e => (.error e, d)
  | .ok tok => (.ok (), { d with tokens := some (mkTokens tok now) })

/-- `DirectGrantAuth::refresh`: fails with `MissingAccessToken` when no
prior token pair exists, otherwise performs the refresh-token grant exchange
(outcome `resp`) and stores the new token pair. -/
def refresh (d : DirectGrantAuth) (resp : Except KcError TokenResponse)
    (now : Nat) : Except KcError Unit × DirectGrantAuth :=
  match d.tokens with
  | some _ =>
    match resp with
    | .error e => (.error e, d)
    | .ok tok => (.ok (), { d with tokens := some (mkTokens tok now) })
  | none => (.error (KcError.newKind .missingAccessToken), d)

end DirectGrantAuth

/-- The state of `AccessTokenAuth`: a fixed externally supplied token
(the Rust field is named `access_token`; renamed here because the trait
method of the same name is also modelled). -/
structure AccessTokenAuth where
  token : String
deriving DecidableEq, Repr

namespace AccessTokenAuth

/-- `AccessTokenAuth::access_token`. -/
def access_token (a : AccessTokenAuth) : Option String :=
  some a.token

/-- `AccessTokenAuth::token_is_valid`: unconditionally `true`. -/
def token_is_valid (_ : AccessTokenAuth) : Bool := true

/-- `AccessTokenAuth::needs_refresh`: `!self.token_is_valid()`. -/
def needs_refresh (a : AccessTokenAuth) : Bool := ! a.token_is_valid

/-- `AccessTokenAuth::can_refresh`: unconditionally `false`. -/
def can_refresh (_ : AccessTokenAuth) : Bool := false

/-- `AccessTokenAuth::refresh`: always fails with `Authentication`. -/
def refresh (a : AccessTokenAuth) :
    Except KcError Unit × AccessTokenAuth :=
  (.error (KcError.newKind .authentication), a)

end AccessTokenAuth

/-- An abstract `AuthenticationProvider` over a state type `σ`
(the trait of `src/rust/src/auth.rs`).  Methods that take `&mut self` and
run a network exchange are state-passing functions; the network outcome is
folded into the function (the development quantifies over all providers, so
every outcome is covered). -/
structure ProviderModel (σ : Type) where
  login : KeycloakConfig → σ → Except KcError Unit × σ
  refresh : KeycloakConfig → σ → Except KcError Unit × σ
  access_token : σ → Option String
  token_is_valid : σ → Bool
  needs_refresh : σ → Bool
  can_refresh : σ → Bool

/-! ## Session (`src/rust/src/lib.rs`) -/

/-- The low-level `reqwest` client as far as the session logic observes it:
the default `Authorization` header installed by `Keycloak::build_client`. -/
structure HttpClient where
  authHeader : String
deriving DecidableEq, Repr

/-- `Keycloak::build_client` (`src/rust/src/lib.rs` lines 71-86): builds a
client whose default authorization header is `Bearer <access_token>`. -/
def buildClient (access_token : String) : HttpClient :=
  { authHeader := "Bearer " ++ access_token }

/-- The mutable state owned by a `Keycloak<A>` session: the provider state
(behind `auth: RwLock<A>`) and the low-level api client (behind
`api_client: RwLock<rest::Client>`). -/
structure SessionState (σ : Type) where
  auth : σ
  apiClient : HttpClient

/-- Effects a session operation performs on the provider, recorded as an
explicit trace so that "login is called exactly once" and "no refresh is
attempted" are provable statements. -/
inductive Eff where
  | login
  | refresh
deriving DecidableEq, Repr

/-- `Keycloak::new` (`src/rust/src/lib.rs` lines 41-65): perform `login`;
an `Authentication` login error is returned as-is and any other login error
is wrapped as `Authentication` with the original as cause; then require
`token_is_valid` and a present access token (else `MissingAccessToken`);
finally build the client from the token. -/
def KeycloakNew {σ : Type} (P : ProviderModel σ) (cfg : KeycloakConfig)
    (auth : σ) : Except KcError (SessionState σ) × List Eff :=
  match P.login cfg auth with
  | (.error e, _) =>
    if e.kind = .authentication then (.error e, [.login])
    else (.error (KcError.new .authentication (some e)), [.login])
  | (.ok _, auth') =>
    if ! P.token_is_valid auth' then
      (.error (KcError.newKind .missingAccessToken), [.login])
    else
      match P.access_token auth' with
      | none => (.error (KcError.newKind .missingAccessToken), [.login])
      | some access_token =>
        (.ok { auth := auth', apiClient := buildClient access_token },
         [.login])

/-- `Keycloak::refresh_if_necessary` (`src/rust/src/lib.rs` lines 88-114)
run without interleaving: under the read lock, return `Ok` when
`token_is_valid`, fail with `TokenExpired` when additionally
`!can_refresh`; otherwise, under the write lock, run `refresh`
(propagating its error), require an access token (else
`MissingAccessToken`), build the new client, and finally install it in
`api_client`.  Returns the result, the final session state, and the trace
of provider effects. -/
def refreshIfNecessary {σ : Type} (P : ProviderModel σ) (cfg : KeycloakConfig)
    (s : SessionState σ) :
    Except KcError Unit × SessionState σ × List Eff :=
  if P.token_is_valid s.auth then (.ok (), s, [])
  else if ! P.can_refresh s.auth then
    (.error (KcError.newKind .tokenExpired), s, [])
  else
    match P.refresh cfg s.auth with
    | (.error e, auth') => (.error e, { s with auth := auth' }, [.refresh])
    | (.ok _, auth') =>
      match P.access_token auth' with
      | none =>
        (.error (KcError.newKind .missingAccessToken),
         { s with auth := auth' }, [.refresh])
      | some new_token =>
        (.ok (),
         { auth := auth', apiClient := buildClient new_token }, [.refresh])

/-- `Keycloak::with_client` (`src/rust/src/lib.rs` lines 132-139): run
`refresh_if_necessary`, propagating its error, then invoke the
caller-supplied operation on the current low-level client. -/
def withClient {σ ρ : Type} (P : ProviderModel σ) (cfg : KeycloakConfig)
    (s : SessionState σ) (cbk : HttpClient → Except KcError ρ) :
    Except KcError ρ × SessionState σ × List Eff :=
  match refreshIfNecessary P cfg s with
  | (.error e, s', tr) => (.error e, s', tr)
  | (.ok _, s', tr) => (cbk s'.apiClient, s', tr)

/-! ## Pagination driver (`src/src/macros.rs`, `paginate_api!`) -/

/-- `PAGE_MAX` from `src/src/macros.rs`. -/
def PAGE_MAX : Int := 100

/-- The `while let Some(first) = page_offset.take()` loop of
`paginate_api!` (`src/src/macros.rs` lines 7-20): call the api with the
current offset and `PAGE_MAX`, append the returned page to `results`, and
continue with offset `first + PAGE_MAX` exactly when the page length equals
`PAGE_MAX`.  The loop is not structurally terminating (an adversarial
source can return full pages forever), so it takes fuel and returns `none`
on exhaustion; alongside the results it records the list of offsets the
api capability was called with. -/
def paginateLoop {α : Type} (apiCall : Int → Int → List α) :
    Nat → Int → List α → List Int → Option (List α × List Int)
  | 0, _, _, _ => none
  | fuel + 1, first, results, offsets =>
    let page := apiCall first PAGE_MAX
    let page_len := page.length
    let results := results ++ page
    let offsets := offsets ++ [first]
    if page_len = 100 then
      paginateLoop apiCall fuel (first + PAGE_MAX) results offsets
    else
      some (results, offsets)

/-- `paginate_api!` (`src/src/macros.rs`): run the loop starting from
offset `0` with empty accumulators. -/
def paginateApi {α : Type} (apiCall : Int → Int → List α) (fuel : Nat) :
    Option (List α × List Int) :=
  paginateLoop apiCall fuel 0 [] []

/-! ## `user_by_name` (`src/rust/src/api/user.rs` lines 41-79) -/

/-- `KeycloakUserExt::user_by_name` for `Keycloak<A>`: run
`refresh_if_necessary` (propagating its error), issue the exact-username
user query (its transport-successful response is the parameter
`response`, the user-representation type `υ` being the opaque generated
binding type), then: if the response is empty fail with
`NotFound(User)`; otherwise `response.pop()` takes the LAST element as
the user, and if anything remains fail with `NotUnique(User)`. -/
def userByName {σ υ : Type} (P : ProviderModel σ) (cfg : KeycloakConfig)
    (s : SessionState σ) (response : List υ) :
    Except KcError υ × SessionState σ × List Eff :=
  match refreshIfNecessary P cfg s with
  | (.error e, s', tr) => (.error e, s', tr)
  | (.ok _, s', tr) =>
    match response.getLast? with
    | none => (.error (KcError.newKind (.notFound .user)), s', tr)
    | some user =>
      if ! response.dropLast.isEmpty then
        (.error (KcError.newKind (.notUnique .user)), s', tr)
      else
        (.ok user, s', tr)

/-! ## JSON values and parsing

The policy decoder stores structured values string-encoded inside the
`config` map and uses the external `serde_json` crate to decode them.  The
subset of JSON the policy layer actually stores (strings, booleans, arrays,
objects; no escape sequences) is modelled here with an executable
recursive-descent parser so that the decoder is runnable on concrete
inputs. -/

/-- JSON values (the subset used by policy `config` fields). -/
inductive Json where
  | bool (b : Bool)
  | str (s : String)
  | arr (elems : List Json)
  | obj (fields : List (String × Json))
deriving Repr

/-- Skip JSON whitespace. -/
def skipWs : List Char → List Char
  | c :: cs =>
    if c = ' ' ∨ c = '\n' ∨ c = '\t' ∨ c = '\r' then skipWs cs else c :: cs
  | [] => []

/-- Parse the body of a JSON string literal (after the opening quote) up to
the closing quote; escape sequences are not modelled (none occur in the
policy payloads). -/
def parseStringChars : List Char → Option (List Char × List Char)
  | [] => none
  | c :: cs =>
    if c = '"' then some ([], cs)
    else if c = '\\' then none
    else (parseStringChars cs).map fun p => (c :: p.1, p.2)

mutual

/-- Parse one JSON value, returning it and the unconsumed input. -/
def parseValue : Nat → List Char → Option (Json × List Char)
  | 0, _ => none
  | fuel + 1, cs =>
    match skipWs cs with
    | '"' :: rest =>
      (parseStringChars rest).map fun p => (Json.str (String.mk p.1), p.2)
    | 't' :: 'r' :: 'u' :: 'e' :: rest => some (.bool true, rest)
    | 'f' :: 'a' :: 'l' :: 's' :: 'e' :: rest => some (.bool false, rest)
    | '[' :: rest =>
      match skipWs rest with
      | ']' :: rest' => some (.arr [], rest')
      | rest' => parseArrayTail fuel rest' []
    | '\x7b' :: rest =>
      match skipWs rest with
      | '\x7d' :: rest' => some (.obj [], rest')
      | rest' => parseObjTail fuel rest' []
    | _ => none

/-- Parse the remaining elements of a non-empty JSON array. -/
def parseArrayTail : Nat → List Char → List Json → Option (Json × List Char)
  | 0, _, _ => none
  | fuel + 1, cs, acc =>
    match parseValue fuel cs with
    | none => none
    | some (v, rest) =>
      match skipWs rest with
      | ',' :: rest' => parseArrayTail fuel rest' (acc ++ [v])
      | ']' :: rest' => some (.arr (acc ++ [v]), rest')
      | _ => none

/-- Parse the remaining members of a non-empty JSON object. -/
def parseObjTail :
    Nat → List Char → List (String × Json) → Option (Json × List Char)
  | 0, _, _ => none
  | fuel + 1, cs, acc =>
    match skipWs cs with
    | '"' :: rest =>
      match parseStringChars rest with
      | none => none
      | some (key, rest') =>
        match skipWs rest' with
        | ':' :: rest2 =>
          match parseValue fuel rest2 with
          | none => none
          | some (v, rest3) =>
            match skipWs rest3 with
            | ',' :: rest4 =>
              parseObjTail fuel rest4 (acc ++ [(String.mk key, v)])
            | '\x7d' :: rest4 =>
              some (.obj (acc ++ [(String.mk key, v)]), rest4)
            | _ => none
        | _ => none
    | _ => none

end

/-! ## Policy decoder (`src/rust/src/rest/types/policies.rs`) -/

/-- Modelled from the spec: the generated `PolicyRepresentation` (the
"Abstract Policy Record" of §3, produced by the OpenAPI generator and not
present in the authored sources): an optional `type` discriminant, an open
string-to-string `config` map, and further common policy fields
(represented by optional `id`, `name` and `description`). -/
structure PolicyRepresentation where
  type_ : Option String
  config : List (String × String)
  id : Option String := none
  name : Option String := none
  description : Option String := none
deriving DecidableEq, Repr

/-- `RolePolicyRepresentationRoleDefinition`
(`src/rust/src/rest/types/policies.rs` lines 70-76); `required` carries
`#[serde(default)]`. -/
structure RolePolicyRepresentationRoleDefinition where
  id : String
  required : Bool
deriving DecidableEq, Repr

/-- `RolePolicyRepresentation` (`src/rust/src/rest/types/policies.rs`
lines 78-84): typed `roles` plus the flattened embedded record. -/
structure RolePolicyRepresentation where
  roles : List RolePolicyRepresentationRoleDefinition
  policy : PolicyRepresentation
deriving DecidableEq, Repr

/-- `HashMap::remove` on the association-list model of `config`: drop the
(unique) entry with the given key. -/
def removeKey (field : String) :
    List (String × String) → List (String × String)
  | [] => []
  | (k, v) :: rest =>
    if k = field then rest else (k, v) :: removeKey field rest

/-- `check_policy_type` (`src/rust/src/rest/types/policies.rs` lines
232-248): fail with `MissingField("type")` when the discriminant is
absent, with `WrongType(expected, actual)` when it differs from
`expected_type`. -/
def check_policy_type (policy : PolicyRepresentation)
    (expected_type : String) : Except KcError Unit :=
  match policy.type_ with
  | none => .error (KcError.newKind (.missingField "type"))
  | some policy_type =>
    if policy_type ≠ expected_type then
      .error (KcError.newKind (.wrongType expected_type policy_type))
    else
      .ok ()

/-- `check_policy_config` (`src/rust/src/rest/types/policies.rs` lines
249-264): leftover config keys only produce a warning log (elided here);
the config map is unconditionally cleared so that re-serializing the
refined policy does not reintroduce it. -/
def check_policy_config (policy : PolicyRepresentation)
    (_expected_type : String) : PolicyRepresentation :=
  { policy with config := [] }

/-- `get_policy_config_field` (`src/rust/src/rest/types/policies.rs`
lines 266-276): remove the key from `config` and return its value, or fail
with `MissingField("config.<key>")`. -/
def get_policy_config_field (policy : PolicyRepresentation)
    (field : String) : Except KcError (String × PolicyRepresentation) :=
  match policy.config.lookup field with
  | none =>
    .error (KcError.newKind (.missingField ("config." ++ field)))
  | some value =>
    .ok (value, { policy with config := removeKey field policy.config })

/-- `serde_json` decoding of one `RolePolicyRepresentationRoleDefinition`
from a JSON value: an object with a string `id` (required) and a boolean
`required` (`#[serde(default)]`, i.e. `false` when absent); unknown object
members are ignored, as serde does by default. -/
def roleDefinitionOfJson (j : Json) :
    Option RolePolicyRepresentationRoleDefinition :=
  match j with
  | .obj fields =>
    match fields.lookup "id" with
    | some (.str id) =>
      match fields.lookup "required" with
      | some (.bool b) => some { id := id, required := b }
      | none => some { id := id, required := false }
      | some _ => none
    | _ => none
  | _ => none

/-- `serde_json::from_str::<Vec<RolePolicyRepresentationRoleDefinition>>`
(external library, modelled): parse the string as a JSON array (requiring
the whole input to be consumed) and decode each element; any failure is a
`Deserialize` error, as produced by `crate::error::deserialize` (the
wrapped serde error object is elided). -/
def rolesFromStr (s : String) :
    Except KcError (List RolePolicyRepresentationRoleDefinition) :=
  match parseValue (2 * s.length + 2) s.toList with
  | none => .error (KcError.newKind .deserialize)
  | some (j, rest) =>
    if ! (skipWs rest).isEmpty then .error (KcError.newKind .deserialize)
    else
      match j with
      | .arr elems =>
        match elems.mapM roleDefinitionOfJson with
        | some defs => .ok defs
        | none => .error (KcError.newKind .deserialize)
      | _ => .error (KcError.newKind .deserialize)

/-- `deserialize_policy_config_field::<Vec<RolePolicyRepresentationRoleDefinition>>`
(`src/rust/src/rest/types/policies.rs` lines 278-287) at the `roles`
field: get-and-remove the config value, then decode it with
`serde_json::from_str`. -/
def deserialize_policy_config_roles (policy : PolicyRepresentation) :
    Except KcError
      (List RolePolicyRepresentationRoleDefinition × PolicyRepresentation) :=
  match get_policy_config_field policy "roles" with
  | .error e => .error e
  | .ok (value, policy') =>
    match rolesFromStr value with
    | .error e => .error e
    | .ok roles => .ok (roles, policy')

/-- `TryFrom<PolicyRepresentation> for RolePolicyRepresentation`
(`src/rust/src/rest/types/policies.rs` lines 198-213): check the
discriminant, extract and decode `config["roles"]`, clear the leftover
config, and embed the record. -/
def RolePolicyRepresentation.tryFrom (value : PolicyRepresentation) :
    Except KcError RolePolicyRepresentation :=
  match check_policy_type value "role" with
  | .error e => .error e
  | .ok _ =>
    match deserialize_policy_config_roles value with
    | .error e => .error e
    | .ok (roles, value') =>
      let value'' := check_policy_config value' "role"
      .ok { roles := roles, policy := value'' }

/-! ## Serialization of policies

Modelled from the spec: serde serialization of the generated
`PolicyRepresentation` and of `RolePolicyRepresentation` (whose embedded
record is `#[serde(flatten)]`ed).  Absent optional fields are omitted, and
the `config` map is omitted when empty — §3's invariant that
"re-serializing a refined policy must not reintroduce `config`" is the
spec's description of this generated serialization behaviour. -/

/-- Modelled from the spec: serde encoding of one role definition. -/
def encodeRoleDefinition (d : RolePolicyRepresentationRoleDefinition) :
    Json :=
  .obj [("id", .str d.id), ("required", .bool d.required)]

/-- Modelled from the spec: the serde-encoded members of a
`PolicyRepresentation` (optional fields omitted when absent, `config`
omitted when empty). -/
def encodePolicyFields (p : PolicyRepresentation) : List (String × Json) :=
  (match p.type_ with
   | some t => [("type", Json.str t)]
   | none => []) ++
  (if p.config.isEmpty then []
   else [("config", Json.obj (p.config.map fun kv => (kv.1, Json.str kv.2)))]) ++
  (match p.id with
   | some v => [("id", Json.str v)]
   | none => []) ++
  (match p.name with
   | some v => [("name", Json.str v)]
   | none => []) ++
  (match p.description with
   | some v => [("description", Json.str v)]
   | none => [])

/-- Modelled from the spec: serde encoding of a `PolicyRepresentation`. -/
def encodePolicyRepresentation (p : PolicyRepresentation) : Json :=
  .obj (encodePolicyFields p)

/-- Modelled from the spec: serde encoding of a `RolePolicyRepresentation`:
the typed `roles` member followed by the flattened embedded record. -/
def encodeRolePolicyRepresentation (rp : RolePolicyRepresentation) : Json :=
  .obj (("roles", Json.arr (rp.roles.map encodeRoleDefinition))
        :: encodePolicyFields rp.policy)

/-! ## Interleaving model of concurrent `refresh_if_necessary` calls

`refresh_if_necessary` (`src/rust/src/lib.rs` lines 88-114) consists of
three lock-delimited regions: (1) the `auth.read()` block checking
`token_is_valid` / `can_refresh`, (2) the `auth.write()` block running
`refresh`, reading `access_token` and building the new client, and (3) the
`api_client.write()` assignment installing it.  Each region is one atomic
step here: the write-locked regions are mutually exclusive in the real
program, and the read-locked region performs no writes, so serializing the
regions loses no observable interleaving.  A scheduler picks which task
steps next; the global state counts the refresh calls that reach the token
endpoint. -/

/-- Shared session state plus a counter of token-endpoint refresh calls. -/
structure ConcState (σ : Type) where
  auth : σ
  client : HttpClient
  refreshCount : Nat

/-- Program counter of one task running `refresh_if_necessary`:
`start` = before the read-locked check block, `refreshing` = before the
`auth.write()` block, `install c` = before the `api_client.write()`
assignment of the already-built client `c`, `finished r` = returned `r`. -/
inductive TaskPc where
  | start
  | refreshing
  | install (newClient : HttpClient)
  | finished (result : Except KcError Unit)

/-- Execute the next atomic region of one task (see `refresh_if_necessary`
lines 90-99 for `start`, 102-110 for `refreshing`, 111-112 for
`install`). -/
def taskStep {σ : Type} (P : ProviderModel σ) (cfg : KeycloakConfig)
    (g : ConcState σ) (t : TaskPc) : ConcState σ × TaskPc :=
  match t with
  | .start =>
    if P.token_is_valid g.auth then (g, .finished (.ok ()))
    else if ! P.can_refresh g.auth then
      (g, .finished (.error (KcError.newKind .tokenExpired)))
    else (g, .refreshing)
  | .refreshing =>
    match P.refresh cfg g.auth with
    | (.error e, auth') =>
      ({ g with auth := auth', refreshCount := g.refreshCount + 1 },
       .finished (.error e))
    | (.ok _, auth') =>
      match P.access_token auth' with
      | none =>
        ({ g with auth := auth', refreshCount := g.refreshCount + 1 },
         .finished (.error (KcError.newKind .missingAccessToken)))
      | some tok =>
        ({ g with auth := auth', refreshCount := g.refreshCount + 1 },
         .install (buildClient tok))
  | .install c => ({ g with client := c }, .finished (.ok ()))
  | .finished r => (g, .finished r)

/-- Run the task named by the scheduler (out-of-range names are no-ops). -/
def runStep {σ : Type} (P : ProviderModel σ) (cfg : KeycloakConfig)
    (st : ConcState σ × List TaskPc) (i : Nat) : ConcState σ × List TaskPc :=
  match st.2[i]? with
  | none => st
  | some t =>
    let r := taskStep P cfg st.1 t
    (r.1, st.2.set i r.2)

/-- Run a whole schedule (a list of task names) from an initial state. -/
def runSchedule {σ : Type} (P : ProviderModel σ) (cfg : KeycloakConfig)
    (st : ConcState σ × List TaskPc) (sched : List Nat) :
    ConcState σ × List TaskPc :=
  sched.foldl (runStep P cfg) st

/-- Weight of a task for the refresh-counting argument: `1` while the task
may still issue a refresh call (it has not passed the `auth.write` block),
`0` afterwards. -/
def TaskPc.weight : TaskPc → Nat
  | .start => 1
  | .refreshing => 1
  | .install _ => 0
  | .finished _ => 0

/-- Total weight of a task list. -/
def totalWeight (ts : List TaskPc) : Nat :=
  (ts.map TaskPc.weight).sum

/-! ## Concrete instances used in the theorems -/

/-- The `AuthenticationProvider` impl for `DirectGrantAuth`
(`src/rust/src/auth.rs` lines 184-239), packaged as a `ProviderModel` at a
frozen instant `now`, with the token-endpoint outcomes for login and
refresh given as oracles. -/
def directGrantProvider (now : Nat)
    (loginResp refreshResp : Except KcError TokenResponse) :
    ProviderModel DirectGrantAuth :=
  { login := fun _ d => d.login loginResp now
    refresh := fun _ d => d.refresh refreshResp now
    access_token := fun d => d.access_token
    token_is_valid := fun d => d.token_is_valid now
    needs_refresh := fun d => d.needs_refresh now
    can_refresh := fun d => d.can_refresh now }

/-- The `AuthenticationProvider` impl for `AccessTokenAuth`
(`src/rust/src/auth.rs` lines 99-124) packaged as a `ProviderModel`
(`login` is `Ok(())` without state change). -/
def accessTokenProvider : ProviderModel AccessTokenAuth :=
  { login := fun _ a => (.ok (), a)
    refresh := fun _ a => a.refresh
    access_token := fun a => a.access_token
    token_is_valid := fun a => a.token_is_valid
    needs_refresh := fun a => a.needs_refresh
    can_refresh := fun a => a.can_refresh }

/-- A sample session configuration. -/
def cfg0 : KeycloakConfig :=
  { base_url := "http://localhost", realm := "master" }

/-- A token-endpoint outcome that is a transport failure. -/
def transportFail : Except KcError TokenResponse :=
  .error (KcError.newKind .reqwest)

/-- A provider state holding a token that expires at instant 105 (5 seconds
after the observation instant 100 used in the theorems, i.e. inside the
10-second refresh safety margin) with refresh material valid until 1000. -/
def nearExpiryAuth : DirectGrantAuth :=
  { tokens := some { access_token := "tok", expiry := 105,
                     refresh_token := "rtok", refresh_expiry := 1000 } }

/-- The session built on `nearExpiryAuth`. -/
def sessionNearExpiry : SessionState DirectGrantAuth :=
  { auth := nearExpiryAuth, apiClient := buildClient "tok" }

/-- A provider state whose access token expired at 50 but whose refresh
token is valid until 1000 (stale but refreshable at instant 100). -/
def expiredAuth : DirectGrantAuth :=
  { tokens := some { access_token := "t0", expiry := 50,
                     refresh_token := "r0", refresh_expiry := 1000 } }

/-- A successful token-endpoint response (60-second lifetimes). -/
def freshResponse : TokenResponse :=
  { access_token := "t1", expires_in := 60,
    refresh_token := "r1", refresh_expires_in := 60 }

/-- The provider used in the concurrency run: `DirectGrantAuth` at instant
100 whose refresh exchanges all succeed with `freshResponse`. -/
def concProvider : ProviderModel DirectGrantAuth :=
  directGrantProvider 100 (.ok freshResponse) (.ok freshResponse)

/-- Initial shared state for the concurrency run: expired-but-refreshable
provider and zero refresh calls so far. -/
def concInit : ConcState DirectGrantAuth :=
  { auth := expiredAuth, client := buildClient "t0", refreshCount := 0 }

/-- A page source answering offsets 0, 100, 200 with pages of sizes
100, 100 and 37. -/
def pagesABC : Int → Int → List Nat := fun first _ =>
  if first = 0 then List.replicate 100 0
  else if first = 100 then List.replicate 100 1
  else List.replicate 37 2

/-- A page source answering offset 0 with a full page of 100 items and
every later offset with an empty page. -/
def pagesFullThenEmpty : Int → Int → List Nat := fun first _ =>
  if first = 0 then List.replicate 100 0 else []

/-- The abstract policy record of §8's round-trip property:
`type = "role"` and a `config` map whose `roles` key holds the
string-encoded list `[\x7b"id":"r1","required":true\x7d]`. -/
def rolePolicyRecord : PolicyRepresentation :=
  { type_ := some "role"
    config := [("roles", "[\x7b\"id\":\"r1\",\"required\":true\x7d]")] }

/-- The refined role policy that decoding `rolePolicyRecord` yields. -/
def decodedRolePolicy : RolePolicyRepresentation :=
  { roles := [{ id := "r1", required := true }]
    policy := { type_ := some "role", config := [] } }

/-- An abstract policy record whose discriminant is `"user"`. -/
def userTypedRecord : PolicyRepresentation :=
  { type_ := some "user", config := [("users", "[]")] }

/-- A role-typed record carrying an extra, unrecognized config key next to
the required `roles` key. -/
def extraKeysRecord : PolicyRepresentation :=
  { type_ := some "role"
    config := [("roles", "[]"), ("decisionStrategy", "UNANIMOUS")]
    id := some "pid" }

/-- A provider state whose access and refresh tokens both expired at 50
and 60 (dead at instant 100). -/
def deadAuth : DirectGrantAuth :=
  { tokens := some { access_token := "t", expiry := 50,
                     refresh_token := "r", refresh_expiry := 60 } }

/-- The session built on `deadAuth`. -/
def sessionDead : SessionState DirectGrantAuth :=
  { auth := deadAuth, apiClient := buildClient "t" }

end Keycloak

open Keycloak

/-- C1: the claim says every call routed through the session first checks
the provider's `needs_refresh` and refreshes whenever it is true and
refresh is possible, so that no request goes out inside the 10-second
safety margin.  The code checks `token_is_valid` instead: at instant 100
with a token expiring at 105, `needs_refresh` is true and refresh is
possible, yet `with_client` performs no refresh (empty effect trace,
unchanged session) and hands the operation the old client, issuing the
request 5 seconds before expiry. -/
theorem C1_request_runs_inside_safety_margin :
    DirectGrantAuth.needs_refresh nearExpiryAuth 100 = true ∧
    DirectGrantAuth.can_refresh nearExpiryAuth 100 = true ∧
    withClient (directGrantProvider 100 transportFail transportFail) cfg0
        sessionNearExpiry (fun c => .ok c) =
      (.ok (buildClient "tok"), sessionNearExpiry, []) :=
  ⟨rfl, rfl, rfl⟩

/-- C5: whenever the provider's token is invalid and it cannot refresh,
`refresh_if_necessary` (and hence every call through the invocation
contract) fails with `TokenExpired`, leaves the session untouched and
attempts no refresh; and for `DirectGrantAuth` this dead state is stable
under the passage of time, so every subsequent call fails the same way. -/
theorem C5_dead_state_terminal :
    (∀ (σ : Type) (P : ProviderModel σ) (cfg : KeycloakConfig)
        (s : SessionState σ),
      P.token_is_valid s.auth = false → P.can_refresh s.auth = false →
      refreshIfNecessary P cfg s =
        (.error (KcError.newKind .tokenExpired), s, []) ∧
      ∀ (ρ : Type) (cbk : HttpClient → Except KcError ρ),
        withClient P cfg s cbk =
          (.error (KcError.newKind .tokenExpired), s, [])) ∧
    (∀ (d : DirectGrantAuth) (now now' : Nat), now ≤ now' →
      DirectGrantAuth.token_is_valid d now = false →
      DirectGrantAuth.can_refresh d now = false →
      DirectGrantAuth.token_is_valid d now' = false ∧
      DirectGrantAuth.can_refresh d now' = false) := by
  constructor
  · intro σ P cfg s h1 h2
    have hr : refreshIfNecessary P cfg s =
        (.error (KcError.newKind .tokenExpired), s, []) := by
      simp [refreshIfNecessary, h1, h2]
    exact ⟨hr, fun ρ cbk => by simp [withClient, hr]⟩
  · intro d now now' hle hv hc
    cases htok : d.tokens with
    | none =>
      simp [DirectGrantAuth.token_is_valid, DirectGrantAuth.can_refresh, htok]
    | some t =>
      simp [DirectGrantAuth.token_is_valid, DirectGrantAuth.can_refresh,
        htok] at hv hc ⊢
      omega

/-- Witness for C5 at a concrete dead provider: token expired at 50,
refresh token expired at 60, observed at instants 100 then 200. -/
theorem C5_witness :
    (refreshIfNecessary (directGrantProvider 100 transportFail transportFail)
        cfg0 sessionDead =
      (.error (KcError.newKind .tokenExpired), sessionDead, [])) ∧
    (DirectGrantAuth.token_is_valid deadAuth 200 = false ∧
     DirectGrantAuth.can_refresh deadAuth 200 = false) :=
  ⟨((C5_dead_state_terminal.1 DirectGrantAuth
      (directGrantProvider 100 transportFail transportFail) cfg0 sessionDead
      rfl rfl).1),
   C5_dead_state_terminal.2 deadAuth 100 200 (by decide) rfl rfl⟩

/-- C10: whenever the pre-request refresh step returns an error — token
expired and unrefreshable, a failing `refresh()`, or a missing access
token after refresh — the low-level api client is left unchanged; on
success the client is either untouched (no refresh was needed) or rebuilt
from the access token the refresh yielded. -/
theorem C10_client_unchanged_on_error :
    ∀ (σ : Type) (P : ProviderModel σ) (cfg : KeycloakConfig)
      (s : SessionState σ),
      (∀ e s' tr, refreshIfNecessary P cfg s = (.error e, s', tr) →
        s'.apiClient = s.apiClient) ∧
      (∀ s' tr, refreshIfNecessary P cfg s = (.ok (), s', tr) →
        s'.apiClient = s.apiClient ∨
        ∃ tok, P.access_token s'.auth = some tok ∧
          s'.apiClient = buildClient tok) := by
  intro σ P cfg s
  by_cases h1 : P.token_is_valid s.auth = true
  · constructor
    · intro e s' tr hrun
      simp [refreshIfNecessary, h1] at hrun
    · intro s' tr hrun
      simp [refreshIfNecessary, h1] at hrun
      exact Or.inl (by rw [← hrun.1])
  · rw [Bool.not_eq_true] at h1
    by_cases h2 : P.can_refresh s.auth = true
    · rcases hr : P.refresh cfg s.auth with ⟨res, auth'⟩
      cases res with
      | error e =>
        constructor
        · intro e' s' tr hrun
          simp [refreshIfNecessary, h1, h2, hr] at hrun
          obtain ⟨-, hs, -⟩ := hrun
          subst hs
          rfl
        · intro s' tr hrun
          simp [refreshIfNecessary, h1, h2, hr] at hrun
      | ok u =>
        cases hacc : P.access_token auth' with
        | none =>
          constructor
          · intro e' s' tr hrun
            simp [refreshIfNecessary, h1, h2, hr, hacc] at hrun
            obtain ⟨-, hs, -⟩ := hrun
            subst hs
            rfl
          · intro s' tr hrun
            simp [refreshIfNecessary, h1, h2, hr, hacc] at hrun
        | some tok =>
          constructor
          · intro e' s' tr hrun
            simp [refreshIfNecessary, h1, h2, hr, hacc] at hrun
          · intro s' tr hrun
            simp [refreshIfNecessary, h1, h2, hr, hacc] at hrun
            obtain ⟨hs, -⟩ := hrun
            subst hs
            exact Or.inr ⟨tok, hacc, rfl⟩
    · rw [Bool.not_eq_true] at h2
      constructor
      · intro e s' tr hrun
        simp [refreshIfNecessary, h1, h2] at hrun
        rw [← hrun.2.1]
      · intro s' tr hrun
        simp [refreshIfNecessary, h1, h2] at hrun

/-- Witness for C10: the dead session's failing refresh step leaves the
client untouched. -/
theorem C10_witness :
    (sessionDead : SessionState DirectGrantAuth).apiClient =
      sessionDead.apiClient :=
  (C10_client_unchanged_on_error DirectGrantAuth
      (directGrantProvider 100 transportFail transportFail) cfg0
      sessionDead).1
    (KcError.newKind .tokenExpired) sessionDead [] rfl

/-- C9: with a fresh token, `user_by_name` fails with `NotFound(User)` on
zero matches, returns the unique match on exactly one, and fails with
`NotUnique(User)` on two or more. -/
theorem C9_user_by_name_multiplicity :
    ∀ (σ υ : Type) (P : ProviderModel σ) (cfg : KeycloakConfig)
      (s : SessionState σ), P.token_is_valid s.auth = true →
      ∀ response : List υ,
        (response = [] →
          userByName P cfg s response =
            (.error (KcError.newKind (.notFound .user)), s, [])) ∧
        (∀ u, response = [u] →
          userByName P cfg s response = (.ok u, s, [])) ∧
        (2 ≤ response.length →
          (userByName P cfg s response).1 =
            .error (KcError.newKind (.notUnique .user))) := by
  intro σ υ P cfg s hvalid response
  have hrun : refreshIfNecessary P cfg s = (.ok (), s, []) := by
    simp [refreshIfNecessary, hvalid]
  refine ⟨?_, ?_, ?_⟩
  · rintro rfl
    simp [userByName, hrun]
  · rintro u rfl
    simp [userByName, hrun]
  · intro hlen
    rcases response with _ | ⟨a, _ | ⟨b, t⟩⟩
    · simp at hlen
    · simp at hlen
    · have hne : ¬ (a :: b :: t).dropLast.isEmpty = true := by
        rcases t with _ | ⟨c, t'⟩ <;> simp [List.dropLast]
      have hlast : ∃ u, (a :: b :: t).getLast? = some u :=
        ⟨(a :: b :: t).getLast (by simp), List.getLast?_eq_getLast _ _⟩
      rcases hlast with ⟨u, hu⟩
      simp [userByName, hrun, hu, hne]

/-- Witness for C9 on concrete responses of lengths 0, 1 and 2. -/
theorem C9_witness :
    (userByName accessTokenProvider cfg0
        ⟨⟨"tok"⟩, buildClient "tok"⟩ ([] : List Nat) =
      (.error (KcError.newKind (.notFound .user)),
       (⟨⟨"tok"⟩, buildClient "tok"⟩ : SessionState AccessTokenAuth), [])) ∧
    (userByName accessTokenProvider cfg0
        ⟨⟨"tok"⟩, buildClient "tok"⟩ [7] =
      (.ok 7, (⟨⟨"tok"⟩, buildClient "tok"⟩ : SessionState AccessTokenAuth),
       [])) ∧
    ((userByName accessTokenProvider cfg0
        ⟨⟨"tok"⟩, buildClient "tok"⟩ [7, 8]).1 =
      .error (KcError.newKind (.notUnique .user))) :=
  ⟨(C9_user_by_name_multiplicity AccessTokenAuth Nat accessTokenProvider cfg0
      ⟨⟨"tok"⟩, buildClient "tok"⟩ rfl []).1 rfl,
   (C9_user_by_name_multiplicity AccessTokenAuth Nat accessTokenProvider cfg0
      ⟨⟨"tok"⟩, buildClient "tok"⟩ rfl [7]).2.1 7 rfl,
   (C9_user_by_name_multiplicity AccessTokenAuth Nat accessTokenProvider cfg0
      ⟨⟨"tok"⟩, buildClient "tok"⟩ rfl [7, 8]).2.2 (by decide)⟩

/-- A policy record with an empty `config` serializes without a `config`
member (helper shared by the policy-decoder theorems). -/
theorem encodePolicyFields_no_config (p : PolicyRepresentation)
    (h : p.config = []) :
    (encodePolicyFields p).lookup "config" = none := by
  rcases p with ⟨t, c, i, n, d⟩
  simp only at h
  subst h
  cases t <;> cases i <;> cases n <;> cases d <;> rfl

/-- C7: decoding validates the discriminant first: an absent `type` fails
with `MissingField("type")`; a present but different `type` fails with
`WrongType(expected, actual)`; in particular decoding a `"user"`-typed
record as a role policy fails with `WrongType("role", "user")`. -/
theorem C7_discriminant_checked :
    (∀ (p : PolicyRepresentation) (et : String), p.type_ = none →
      check_policy_type p et =
        .error (KcError.newKind (.missingField "type")) ∧
      RolePolicyRepresentation.tryFrom p =
        .error (KcError.newKind (.missingField "type"))) ∧
    (∀ (p : PolicyRepresentation) (et t : String), p.type_ = some t →
      t ≠ et →
      check_policy_type p et =
        .error (KcError.newKind (.wrongType et t))) ∧
    (∀ (p : PolicyRepresentation) (t : String), p.type_ = some t →
      t ≠ "role" →
      RolePolicyRepresentation.tryFrom p =
        .error (KcError.newKind (.wrongType "role" t))) ∧
    RolePolicyRepresentation.tryFrom userTypedRecord =
      .error (KcError.newKind (.wrongType "role" "user")) := by
  refine ⟨?_, ?_, ?_, rfl⟩
  · intro p et h
    constructor
    · simp [check_policy_type, h]
    · simp [RolePolicyRepresentation.tryFrom, check_policy_type, h]
  · intro p et t h hne
    simp [check_policy_type, h, hne]
  · intro p t h hne
    simp [RolePolicyRepresentation.tryFrom, check_policy_type, h, hne]

/-- Witness for C7 at concrete records: a record without a `type` and the
`"user"`-typed record decoded as a role policy. -/
theorem C7_witness :
    (RolePolicyRepresentation.tryFrom { type_ := none, config := [] } =
      .error (KcError.newKind (.missingField "type"))) ∧
    (check_policy_type userTypedRecord "role" =
      .error (KcError.newKind (.wrongType "role" "user"))) :=
  ⟨(C7_discriminant_checked.1 { type_ := none, config := [] } "role" rfl).2,
   C7_discriminant_checked.2.1 userTypedRecord "role" "user" rfl
     (by decide)⟩

/-- C8: when the discriminant matches and the required `roles` key is
present and well-formed, decoding succeeds whatever other keys remain in
`config`; the leftovers are dropped and the embedded record's config is
empty in the result. -/
theorem C8_unknown_config_keys_tolerated :
    ∀ (p : PolicyRepresentation) (s : String)
      (rs : List RolePolicyRepresentationRoleDefinition),
      p.type_ = some "role" →
      p.config.lookup "roles" = some s →
      rolesFromStr s = .ok rs →
      RolePolicyRepresentation.tryFrom p =
        .ok { roles := rs, policy := { p with config := [] } } := by
  intro p s rs ht hl hp
  simp [RolePolicyRepresentation.tryFrom, check_policy_type, ht,
    deserialize_policy_config_roles, get_policy_config_field, hl, hp,
    check_policy_config]

/-- Witness for C8: a record carrying an extra `decisionStrategy` config
key still decodes, and the extra key is dropped. -/
theorem C8_witness :
    RolePolicyRepresentation.tryFrom extraKeysRecord =
      .ok { roles := []
            policy := { type_ := some "role", config := [],
                        id := some "pid" } } :=
  C8_unknown_config_keys_tolerated extraKeysRecord "[]" [] rfl rfl rfl

/-- C6: the round trip on the concrete role-policy record — decode yields
the typed roles and an empty leftover config, and re-encoding reproduces
the roles and emits no `config` member — together with the general
invariant that every successful refinement clears `config`, so
re-serialization never reintroduces it. -/
theorem C6_role_policy_round_trip :
    RolePolicyRepresentation.tryFrom rolePolicyRecord =
      .ok decodedRolePolicy ∧
    decodedRolePolicy.roles = [{ id := "r1", required := true }] ∧
    decodedRolePolicy.policy.config = [] ∧
    encodeRolePolicyRepresentation decodedRolePolicy =
      .obj [("roles",
             .arr [.obj [("id", .str "r1"), ("required", .bool true)]]),
            ("type", .str "role")] ∧
    (∀ (p : PolicyRepresentation) (rp : RolePolicyRepresentation),
      RolePolicyRepresentation.tryFrom p = .ok rp →
      rp.policy.config = [] ∧
      (encodePolicyFields rp.policy).lookup "config" = none) := by
  refine ⟨rfl, rfl, rfl, rfl, ?_⟩
  intro p rp h
  unfold RolePolicyRepresentation.tryFrom at h
  cases hct : check_policy_type p "role" with
  | error e => rw [hct] at h; simp at h
  | ok u =>
    rw [hct] at h
    cases hd : deserialize_policy_config_roles p with
    | error e => rw [hd] at h; simp at h
    | ok pr =>
      rw [hd] at h
      rcases pr with ⟨roles, value'⟩
      simp only [check_policy_config, Except.ok.injEq] at h
      rw [← h]
      exact ⟨rfl, encodePolicyFields_no_config _ rfl⟩

/-- Witness for C6's general clearing invariant at the concrete decoded
role policy. -/
theorem C6_witness :
    decodedRolePolicy.policy.config = [] ∧
    (encodePolicyFields decodedRolePolicy.policy).lookup "config" = none :=
  C6_role_policy_round_trip.2.2.2.2 rolePolicyRecord decodedRolePolicy rfl

/-- C3: `Keycloak::new` calls `login` exactly once; an `Authentication`
login error is returned as-is and any other login error is wrapped as
`Authentication` with the original as cause; a successful login followed
by an invalid token or an absent access token fails with
`MissingAccessToken`; and a successfully constructed session always holds
a token, with the client built from it. -/
theorem C3_construction_contract :
    ∀ (σ : Type) (P : ProviderModel σ) (cfg : KeycloakConfig) (a : σ),
      (KeycloakNew P cfg a).2 = [Eff.login] ∧
      (∀ e a', P.login cfg a = (.error e, a') →
        (KeycloakNew P cfg a).1 =
          .error (if e.kind = .authentication then e
                  else KcError.new .authentication (some e))) ∧
      (∀ u a', P.login cfg a = (.ok u, a') →
        (P.token_is_valid a' = false ∨ P.access_token a' = none) →
        (KeycloakNew P cfg a).1 =
          .error (KcError.newKind .missingAccessToken)) ∧
      (∀ sess, (KeycloakNew P cfg a).1 = .ok sess →
        ∃ tok, P.access_token sess.auth = some tok ∧
          P.token_is_valid sess.auth = true ∧
          sess.apiClient = buildClient tok) := by
  intro σ P cfg a
  rcases hl : P.login cfg a with ⟨res, a'⟩
  cases res with
  | error e =>
    refine ⟨?_, ?_, ?_, ?_⟩
    · by_cases hk : e.kind = .authentication <;> simp [KeycloakNew, hl, hk]
    · intro e' a'' h
      simp only [Prod.mk.injEq, Except.error.injEq] at h
      obtain ⟨he, -⟩ := h
      subst he
      by_cases hk : e.kind = .authentication <;> simp [KeycloakNew, hl, hk]
    · intro u a'' h
      simp at h
    · intro sess h
      by_cases hk : e.kind = .authentication <;>
        simp [KeycloakNew, hl, hk] at h
  | ok u =>
    refine ⟨?_, ?_, ?_, ?_⟩
    · cases hv : P.token_is_valid a' with
      | false => simp [KeycloakNew, hl, hv]
      | true =>
        cases hacc : P.access_token a' with
        | none => simp [KeycloakNew, hl, hv, hacc]
        | some tok => simp [KeycloakNew, hl, hv, hacc]
    · intro e a'' h
      simp at h
    · intro u' a'' h hd
      have ha : a' = a'' := by
        have h2 := h
        simp only [Prod.mk.injEq] at h2
        exact h2.2
      subst ha
      rcases hd with hv | hacc
      · simp [KeycloakNew, hl, hv]
      · cases hv : P.token_is_valid a' with
        | false => simp [KeycloakNew, hl, hv]
        | true => simp [KeycloakNew, hl, hv, hacc]
    · intro sess h
      cases hv : P.token_is_valid a' with
      | false => simp [KeycloakNew, hl, hv] at h
      | true =>
        cases hacc : P.access_token a' with
        | none => simp [KeycloakNew, hl, hv, hacc] at h
        | some tok =>
          simp [KeycloakNew, hl, hv, hacc] at h
          rw [← h]
          exact ⟨tok, hacc, hv, rfl⟩

/-- Witness for C3: a static-token provider constructs successfully and
holds its token; a direct-grant provider whose login fails with a
transport error gets that error wrapped as `Authentication`. -/
theorem C3_witness :
    ((KeycloakNew accessTokenProvider cfg0 ⟨"tok"⟩).2 = [Eff.login]) ∧
    (∃ tok,
      accessTokenProvider.access_token
          ((⟨⟨"tok"⟩, buildClient "tok"⟩ :
            SessionState AccessTokenAuth).auth) = some tok ∧
      accessTokenProvider.token_is_valid
          ((⟨⟨"tok"⟩, buildClient "tok"⟩ :
            SessionState AccessTokenAuth).auth) = true ∧
      (⟨⟨"tok"⟩, buildClient "tok"⟩ :
        SessionState AccessTokenAuth).apiClient = buildClient tok) ∧
    ((KeycloakNew (directGrantProvider 0 transportFail transportFail) cfg0
        ⟨none⟩).1 =
      .error (KcError.new .authentication
        (some (KcError.newKind .reqwest)))) := by
  refine ⟨(C3_construction_contract AccessTokenAuth accessTokenProvider
      cfg0 ⟨"tok"⟩).1,
    (C3_construction_contract AccessTokenAuth accessTokenProvider
      cfg0 ⟨"tok"⟩).2.2.2 ⟨⟨"tok"⟩, buildClient "tok"⟩ rfl, ?_⟩
  have h := (C3_construction_contract DirectGrantAuth
      (directGrantProvider 0 transportFail transportFail) cfg0
      ⟨none⟩).2.1 (KcError.newKind .reqwest) ⟨none⟩ rfl
  simpa using h

/-- The `paginate_api!` loop, started at offset `100 * j`, fetches exactly
the pages at offsets `100 * j, 100 * (j + 1), …` until the first short
page (helper shared by the pagination theorems). -/
theorem paginateLoop_covers {α : Type} (fetch : Int → Int → List α) :
    ∀ (n fuel j : Nat) (acc : List α) (offs : List Int),
      n < fuel →
      (∀ k : Nat, j ≤ k → k < j + n →
        (fetch (100 * (k : Int)) 100).length = 100) →
      (fetch (100 * ((j + n : Nat) : Int)) 100).length < 100 →
      paginateLoop fetch fuel (100 * (j : Int)) acc offs =
        some (acc ++ ((List.range (n + 1)).map
                (fun i => fetch (100 * ((j + i : Nat) : Int)) 100)).flatten,
              offs ++ (List.range (n + 1)).map
                (fun i => 100 * ((j + i : Nat) : Int))) := by
  intro n
  induction n with
  | zero =>
    intro fuel j acc offs hfuel hfull hshort
    match fuel, hfuel with
    | fuel + 1, _ =>
      have hne : ¬ ((fetch (100 * (j : Int)) 100).length = 100) := by
        simp only [Nat.add_zero] at hshort
        omega
      simp [paginateLoop, PAGE_MAX, hne, List.range_succ]
  | succ n ih =>
    intro fuel j acc offs hfuel hfull hshort
    match fuel, hfuel with
    | fuel + 1, hf' =>
      have hfirst : (fetch (100 * (j : Int)) 100).length = 100 :=
        hfull j (le_refl j) (by omega)
      have ihh := ih fuel (j + 1) (acc ++ fetch (100 * (j : Int)) 100)
        (offs ++ [100 * (j : Int)]) (by omega)
        (fun k hk1 hk2 => hfull k (by omega) (by omega))
        (by
          have heq : j + 1 + n = j + (n + 1) := by omega
          rw [heq]
          exact hshort)
      have harg : (100 * ((j + 1 : Nat) : Int)) =
          100 * (j : Int) + 100 := by
        push_cast
        ring
      rw [harg] at ihh
      have hstep : paginateLoop fetch (fuel + 1) (100 * (j : Int)) acc offs =
          paginateLoop fetch fuel (100 * (j : Int) + 100)
            (acc ++ fetch (100 * (j : Int)) 100)
            (offs ++ [100 * (j : Int)]) := by
        rw [paginateLoop]
        simp [PAGE_MAX, hfirst]
      rw [hstep, ihh]
      have hmaps : (List.range (n + 1)).map
          ((fun i => fetch (100 * ((j + i : Nat) : Int)) 100) ∘ Nat.succ) =
          (List.range (n + 1)).map
            (fun i => fetch (100 * ((j + 1 + i : Nat) : Int)) 100) := by
        apply List.map_congr_left
        intro i _
        simp only [Function.comp]
        congr 2
        omega
      have hmapsOff : (List.range (n + 1)).map
          ((fun i => 100 * ((j + i : Nat) : Int)) ∘ Nat.succ) =
          (List.range (n + 1)).map
            (fun i => 100 * ((j + 1 + i : Nat) : Int)) := by
        apply List.map_congr_left
        intro i _
        simp only [Function.comp]
        congr 1
        omega
      have hpages : ((List.range (n + 1 + 1)).map
            (fun i => fetch (100 * ((j + i : Nat) : Int)) 100)).flatten =
          fetch (100 * (j : Int)) 100 ++
            ((List.range (n + 1)).map
              (fun i => fetch (100 * ((j + 1 + i : Nat) : Int)) 100)).flatten := by
        conv_lhs => rw [List.range_succ_eq_map]
        rw [List.map_cons, List.map_map, List.flatten_cons, hmaps]
        simp
      have hoffs : (List.range (n + 1 + 1)).map
            (fun i => 100 * ((j + i : Nat) : Int)) =
          (100 * (j : Int)) ::
            (List.range (n + 1)).map
              (fun i => 100 * ((j + 1 + i : Nat) : Int)) := by
        conv_lhs => rw [List.range_succ_eq_map]
        rw [List.map_cons, List.map_map, hmapsOff]
        simp
      rw [hpages, hoffs]
      simp

/-- C2: for every page source with `n` full pages of exactly 100 items at
offsets `0, 100, …, 100 * (n - 1)` followed by a short page at offset
`100 * n`, the pagination driver calls the page-fetch capability exactly
at offsets `0, 100, …, 100 * n` with page size 100 (so `n + 1` calls) and
returns the pages concatenated in order: a short first page means exactly
one call, and a full page always causes one more call even if it returns
zero items. -/
theorem C2_pagination_drains_source {α : Type} (fetch : Int → Int → List α)
    (n fuel : Nat) (hfuel : n < fuel)
    (hfull : ∀ k : Nat, k < n →
      (fetch (100 * (k : Int)) 100).length = 100)
    (hshort : (fetch (100 * (n : Int)) 100).length < 100) :
    paginateApi fetch fuel =
      some (((List.range (n + 1)).map
              (fun i : Nat => fetch (100 * (i : Int)) 100)).flatten,
            (List.range (n + 1)).map (fun i : Nat => 100 * (i : Int))) := by
  have h := paginateLoop_covers fetch n fuel 0 [] [] hfuel
    (fun k hk1 hk2 => hfull k (by omega))
    (by simpa using hshort)
  simpa [paginateApi] using h

set_option maxRecDepth 4000 in
/-- Witness for C2: the `[100, 100, 37]` source yields 3 calls at offsets
0, 100, 200 and 237 items in order; the `[100, 0]` source yields 2 calls
and 100 items. -/
theorem C2_witness :
    (paginateApi pagesABC 3 =
      some (((List.range 3).map
              (fun i : Nat => pagesABC (100 * (i : Int)) 100)).flatten,
            (List.range 3).map (fun i : Nat => 100 * (i : Int)))) ∧
    ((List.range 3).map (fun i : Nat => (100 * (i : Int))) =
      [0, 100, 200]) ∧
    (((List.range 3).map
        (fun i : Nat => pagesABC (100 * (i : Int)) 100)).flatten.length
      = 237) ∧
    (paginateApi pagesFullThenEmpty 2 =
      some (((List.range 2).map
              (fun i : Nat => pagesFullThenEmpty (100 * (i : Int)) 100)).flatten,
            (List.range 2).map (fun i : Nat => 100 * (i : Int)))) ∧
    ((List.range 2).map (fun i : Nat => (100 * (i : Int))) = [0, 100]) ∧
    (((List.range 2).map
        (fun i : Nat => pagesFullThenEmpty (100 * (i : Int)) 100)).flatten.length
      = 100) := by
  refine ⟨C2_pagination_drains_source pagesABC 2 3 (by decide) ?_ ?_,
    by decide, by decide,
    C2_pagination_drains_source pagesFullThenEmpty 1 2 (by decide) ?_ ?_,
    by decide, by decide⟩
  · intro k hk
    interval_cases k <;> rfl
  · decide
  · intro k hk
    interval_cases k
    rfl
  · decide

/-- One atomic region of `refresh_if_necessary` never increases the
refresh count by more than the stepping task's remaining refresh
allowance (helper for the concurrency theorems). -/
theorem taskStep_potential {σ : Type} (P : ProviderModel σ)
    (cfg : KeycloakConfig) (g : ConcState σ) (t : TaskPc) :
    (taskStep P cfg g t).1.refreshCount + (taskStep P cfg g t).2.weight ≤
      g.refreshCount + t.weight := by
  cases t with
  | start =>
    by_cases h1 : P.token_is_valid g.auth = true
    · simp only [taskStep, h1, if_true, TaskPc.weight]
      omega
    · rw [Bool.not_eq_true] at h1
      by_cases h2 : P.can_refresh g.auth = true
      · simp only [taskStep, h1, h2, Bool.not_true, Bool.false_eq_true,
          if_false, TaskPc.weight]
        omega
      · rw [Bool.not_eq_true] at h2
        simp only [taskStep, h1, h2, Bool.not_false, if_true,
          Bool.false_eq_true, if_false, TaskPc.weight]
        omega
  | refreshing =>
    rcases hr : P.refresh cfg g.auth with ⟨res, a'⟩
    cases res with
    | error e =>
      simp only [taskStep, hr, TaskPc.weight]
      omega
    | ok u =>
      cases hacc : P.access_token a' with
      | none =>
        simp only [taskStep, hr, hacc, TaskPc.weight]
        omega
      | some tok =>
        simp only [taskStep, hr, hacc, TaskPc.weight]
        omega
  | install c =>
    simp only [taskStep, TaskPc.weight]
    omega
  | finished r =>
    simp only [taskStep, TaskPc.weight]
    omega

/-- Replacing one task updates the total weight by the difference of the
old and new task weights (helper for the concurrency theorems). -/
theorem totalWeight_set :
    ∀ (ts : List TaskPc) (i : Nat) (t t' : TaskPc), ts[i]? = some t →
      totalWeight (ts.set i t') + t.weight = totalWeight ts + t'.weight := by
  intro ts
  induction ts with
  | nil => intro i t t' h; simp at h
  | cons hd tl ih =>
    intro i t t' h
    cases i with
    | zero =>
      simp only [List.getElem?_cons_zero, Option.some.injEq] at h
      subst h
      simp [totalWeight]
      omega
    | succ i =>
      simp only [List.getElem?_cons_succ] at h
      have hih := ih i t t' h
      simp only [List.set_cons_succ, totalWeight, List.map_cons,
        List.sum_cons] at hih ⊢
      omega

/-- One scheduler step never increases refresh count plus total remaining
allowance (helper for the concurrency theorems). -/
theorem runStep_potential {σ : Type} (P : ProviderModel σ)
    (cfg : KeycloakConfig) (st : ConcState σ × List TaskPc) (i : Nat) :
    (runStep P cfg st i).1.refreshCount +
        totalWeight (runStep P cfg st i).2 ≤
      st.1.refreshCount + totalWeight st.2 := by
  unfold runStep
  cases h : st.2[i]? with
  | none => simp
  | some t =>
    simp only []
    have h1 := taskStep_potential P cfg st.1 t
    have h2 := totalWeight_set st.2 i t (taskStep P cfg st.1 t).2 h
    omega

/-- Whole schedules never increase refresh count plus total remaining
allowance (helper for the concurrency theorems). -/
theorem runSchedule_potential {σ : Type} (P : ProviderModel σ)
    (cfg : KeycloakConfig) :
    ∀ (sched : List Nat) (st : ConcState σ × List TaskPc),
      (runSchedule P cfg st sched).1.refreshCount +
          totalWeight (runSchedule P cfg st sched).2 ≤
        st.1.refreshCount + totalWeight st.2 := by
  intro sched
  induction sched with
  | nil => intro st; simp [runSchedule]
  | cons i rest ih =>
    intro st
    have h1 := runStep_potential P cfg st i
    have h2 := ih (runStep P cfg st i)
    simp only [runSchedule, List.foldl_cons] at h2 ⊢
    omega

/-- A list of tasks that are all at `start` has total weight equal to its
length (helper for the concurrency theorems). -/
theorem totalWeight_of_all_start :
    ∀ ts : List TaskPc, (∀ t ∈ ts, t = TaskPc.start) →
      totalWeight ts = ts.length := by
  intro ts
  induction ts with
  | nil => intro h; rfl
  | cons hd tl ih =>
    intro h
    have hhd : hd = TaskPc.start := h hd (by simp)
    have htl := ih (fun t ht => h t (by simp [ht]))
    subst hhd
    simp only [totalWeight, List.map_cons, List.sum_cons, TaskPc.weight,
      List.length_cons] at htl ⊢
    omega

/-- C4 counterexample: two concurrent callers of `refresh_if_necessary`
against one session whose token is expired but refreshable, under the
lock-respecting schedule that lets both pass the read-locked check before
either refreshes.  Both runs complete successfully and TWO refresh calls
reach the token endpoint — the code performs no validity re-check after
escalating to the write lock, so "exactly one refresh" is false. -/
theorem C4_counterexample_two_refreshes :
    (runSchedule concProvider cfg0
        (concInit, [TaskPc.start, TaskPc.start])
        [0, 1, 0, 0, 1, 1]).1.refreshCount = 2 ∧
    (runSchedule concProvider cfg0
        (concInit, [TaskPc.start, TaskPc.start])
        [0, 1, 0, 0, 1, 1]).2 =
      [TaskPc.finished (.ok ()), TaskPc.finished (.ok ())] :=
  ⟨rfl, rfl⟩

/-- C4 amended: refreshes are serialized by the exclusive lock and each
caller performs at most one refresh, so for every schedule over any number
of concurrent callers the number of refresh calls reaching the token
endpoint is at most the number of callers (not exactly one: without a
post-escalation re-check, concurrently blocked callers each refresh). -/
theorem C4_refreshes_bounded_by_callers :
    ∀ (σ : Type) (P : ProviderModel σ) (cfg : KeycloakConfig)
      (g : ConcState σ) (ts : List TaskPc) (sched : List Nat),
      (∀ t ∈ ts, t = TaskPc.start) → g.refreshCount = 0 →
      (runSchedule P cfg (g, ts) sched).1.refreshCount ≤ ts.length := by
  intro σ P cfg g ts sched hstart hz
  have hpot := runSchedule_potential P cfg sched (g, ts)
  have hW := totalWeight_of_all_start ts hstart
  simp only at hpot
  omega

/-- Witness for C4's amended bound at the concrete two-caller run: its two
refreshes do not exceed the two callers. -/
theorem C4_bound_witness :
    (runSchedule concProvider cfg0
        (concInit, [TaskPc.start, TaskPc.start])
        [0, 1, 0, 0, 1, 1]).1.refreshCount ≤ 2 := by
  have h := C4_refreshes_bounded_by_callers DirectGrantAuth concProvider
    cfg0 concInit [TaskPc.start, TaskPc.start] [0, 1, 0, 0, 1, 1]
    (by intro t ht; simp at ht; simp [ht]) rfl
  simpa using h
